import Mathlib

/-!
Shallow embedding of `filter_leads.py`, a single-file pipeline that loads
newline-delimited JSON business records, filters them into sales leads
(no website, at least one review, has phone or email), deduplicates by a
`title|phone` key, classifies each lead into a tier by keyword matching,
sorts by (tier ascending, review count descending) with a stable sort, and
writes three CSV exports plus a console report.

Python string primitives (`str.strip`, `str.lower`, `sep.join`, substring
containment via `in`) are embedded as executable character-list functions
below, restricted to the ASCII range the program's fixed keyword lists and
data use. JSON field access patterns (`d.get(k, default)`, `d.get(k) or x`)
are embedded via the three-valued `JField` type distinguishing an absent
key, a key bound to `null`/`None`, and a key bound to a value.
-/

namespace FilterLeads

/-- Embeds one JSON field of a record: the key may be absent, bound to
`null` (Python `None`), or bound to a value. -/
inductive JField (α : Type) where
  | absent
  | null
  | val (a : α)
deriving DecidableEq

/-- Embeds Python `d.get(k) or ""`: any absent, `None`, or empty value
collapses to the empty string (falsy values are replaced by `""`). -/
def getStrOr (f : JField String) : String :=
  match f with
  | .val s => s
  | _ => ""

/-- Embeds Python `d.get(k, 0) or 0` for an integer field: absent and
`None` (and a stored 0, which is falsy) all yield 0. -/
def getIntOr (f : JField Int) : Int :=
  match f with
  | .val n => n
  | _ => 0

/-- Embeds Python `d.get(k) or []`: absent, `None`, and the empty list all
yield the empty list. -/
def getListOr (f : JField (List String)) : List String :=
  match f with
  | .val l => l
  | _ => []

/-- Embeds Python `d.get(k, default)`: the default is used only when the
key is ABSENT; a key bound to `None` yields `None` (embedded as `none`). -/
def getWithDefault (f : JField α) (d : α) : Option α :=
  match f with
  | .absent => some d
  | .null => none
  | .val v => some v

/-- Embeds Python whitespace for `str.strip` on the ASCII range:
space, tab, newline, carriage return, vertical tab, form feed. -/
def isPySpace (c : Char) : Bool :=
  c = ' ' || c = '\t' || c = '\n' || c = '\r' || c = '\x0b' || c = '\x0c'

/-- Embeds Python `str.strip()`: drop leading and trailing whitespace. -/
def pyStrip (s : String) : String :=
  String.mk (((s.data.dropWhile isPySpace).reverse.dropWhile isPySpace).reverse)

/-- ASCII lowercase of one character, as Python `str.lower()` acts on the
ASCII range. -/
def lowerChar (c : Char) : Char :=
  if 'A' ≤ c ∧ c ≤ 'Z' then Char.ofNat (c.toNat + 32) else c

/-- Embeds Python `str.lower()` (ASCII range). -/
def pyLower (s : String) : String :=
  String.mk (s.data.map lowerChar)

/-- Embeds Python `sep.join(xs)`. -/
def pyJoin (sep : String) : List String → String
  | [] => ""
  | [s] => s
  | s :: rest => s ++ sep ++ pyJoin sep rest

/-- Checks whether the first character list is a prefix of the second. -/
def isPrefixChars : List Char → List Char → Bool
  | [], _ => true
  | _ :: _, [] => false
  | a :: as, b :: bs => a == b && isPrefixChars as bs

/-- Checks whether the first character list occurs contiguously inside the
second. -/
def subIn (needle : List Char) : List Char → Bool
  | [] => isPrefixChars needle []
  | c :: rest => isPrefixChars needle (c :: rest) || subIn needle rest

/-- Embeds Python substring containment `needle in hay`. -/
def strIn (needle hay : String) : Bool :=
  subIn needle.data hay.data

/-- Embeds a raw scraped JSON record (`entry` in the source): each field of
interest of the untyped dict, with absent/null/value distinguished. -/
structure RawRecord where
  web_site : JField String
  review_count : JField Int
  phone : JField String
  emails : JField (List String)
  title : JField String
  categories : JField (List String)
  category : JField String
  review_rating : JField Int
  address : JField String
  link : JField String
  status : JField String
deriving DecidableEq

/-- Source constant `INPUT_FILE`. -/
def INPUT_FILE : String := "bucharest-results.json"

/-- Source constant `OUTPUT_ALL`. -/
def OUTPUT_ALL : String := "bucharest-leads-all.csv"

/-- Source constant `OUTPUT_TIER1`. -/
def OUTPUT_TIER1 : String := "bucharest-leads-tier1.csv"

/-- Source constant `OUTPUT_TIER2`. -/
def OUTPUT_TIER2 : String := "bucharest-leads-tier2.csv"

/-- Source constant `TIER1_KEYWORDS` (trade/emergency-service terms,
Romanian and English). -/
def TIER1_KEYWORDS : List String :=
  ["instalator", "plumber", "instalatii",
   "electrician", "electrice", "electric",
   "acoperis", "roofer", "roof",
   "service auto", "vulcanizare", "mecanic auto", "reparatii auto",
   "auto repair", "car service", "car repair",
   "amenajari", "gradini", "peisagist", "landscap", "gradinar",
   "spatii verzi"]

/-- Source constant `TIER2_KEYWORDS` (dental, beauty/salon, fitness
terms). -/
def TIER2_KEYWORDS : List String :=
  ["dentist", "stomatolog", "dentar", "dental", "implant",
   "salon", "coafor", "coafura", "frizerie", "hair", "infrumusetare",
   "beauty",
   "fitness"]

/-- The lowercase search string built by `classify_tier`:
`f"{title} {' '.join(categories)}".lower()`. -/
def searchText (title : String) (categories : List String) : String :=
  pyLower (title ++ " " ++ pyJoin " " categories)

/-- Embeds source `classify_tier(title, categories)`: scan the tier-1
keyword list for a substring match (early return 1), then the tier-2 list
(early return 2), else 3. -/
def classify_tier (title : String) (categories : List String) : Nat :=
  let text := searchText title categories
  if TIER1_KEYWORDS.any (fun kw => strIn kw text) then 1
  else if TIER2_KEYWORDS.any (fun kw => strIn kw text) then 2
  else 3

/-- Embeds a constructed lead dict (the element appended to `leads` in
`main`). Fields built with `d.get(k, "")`/`d.get(k, 0)` are `Option`s: a
key bound to `None` flows through as `none` (Python `None`). -/
structure Lead where
  tier : Nat
  title : String
  category : Option String
  phone : String
  emails : String
  review_count : Int
  review_rating : Option Int
  address : Option String
  google_maps_link : Option String
  status : Option String
deriving DecidableEq

/-- Embeds the three `continue` guards of the filter loop in `main`:
skip when the trimmed website is non-empty, when the defaulted review
count is below 1, and when both the trimmed phone is empty and the emails
list is empty. -/
def passesFilter (e : RawRecord) : Bool :=
  let website := pyStrip (getStrOr e.web_site)
  let review_count := getIntOr e.review_count
  let phone := pyStrip (getStrOr e.phone)
  let emails := getListOr e.emails
  if website ≠ "" then false
  else if review_count < 1 then false
  else if phone = "" ∧ emails = [] then false
  else true

/-- Embeds `dedup_key = f"{title}|{phone}"` over the trimmed title and
trimmed phone. -/
def dedupKey (e : RawRecord) : String :=
  pyStrip (getStrOr e.title) ++ "|" ++ pyStrip (getStrOr e.phone)

/-- Embeds the lead dict constructed in `main` from a qualifying record. -/
def mkLead (e : RawRecord) : Lead :=
  let title := pyStrip (getStrOr e.title)
  let phone := pyStrip (getStrOr e.phone)
  let emails := getListOr e.emails
  { tier := classify_tier title (getListOr e.categories)
    title := title
    category := getWithDefault e.category ""
    phone := phone
    emails := if emails = [] then "" else pyJoin "; " emails
    review_count := getIntOr e.review_count
    review_rating := getWithDefault e.review_rating 0
    address := getWithDefault e.address ""
    google_maps_link := getWithDefault e.link ""
    status := getWithDefault e.status "" }

/-- Embeds the filter/dedup loop of `main`: `seen` is the set of dedup
keys already taken (the Python `set`, embedded as the list of its
elements); qualifying records whose key is fresh append `mkLead e` and
record the key. -/
def filterLeads : List RawRecord → List String → List Lead
  | [], _ => []
  | e :: rest, seen =>
    if passesFilter e then
      if dedupKey e ∈ seen then filterLeads rest seen
      else mkLead e :: filterLeads rest (dedupKey e :: seen)
    else filterLeads rest seen

/-- The `seen` key set after the filter loop has processed a list of
records, starting from a given key set. -/
def seenAfter : List RawRecord → List String → List String
  | [], seen => seen
  | e :: rest, seen =>
    if passesFilter e then
      if dedupKey e ∈ seen then seenAfter rest seen
      else seenAfter rest (dedupKey e :: seen)
    else seenAfter rest seen

/-- Embeds the sort key comparison induced by
`leads.sort(key=lambda x: (x["tier"], -x["review_count"]))`: ascending
lexicographic order on the pair (tier, negated review count). -/
def leadLE (a b : Lead) : Bool :=
  decide (a.tier < b.tier) ||
    (a.tier == b.tier && decide (b.review_count ≤ a.review_count))

/-- Embeds `leads.sort(...)`: Python `list.sort` is a stable sort by the
key, embedded as a stable merge sort under `leadLE`. -/
def sortLeads (leads : List Lead) : List Lead :=
  leads.mergeSort leadLE

/-- Embeds the loader loop of `main`: each line is stripped, blank lines
are skipped, and a line whose parse fails is silently skipped. `parse`
abstracts `json.loads` composed with the record reading. -/
def loadEntries (parse : String → Option RawRecord) : List String → List RawRecord
  | [] => []
  | l :: ls =>
    if pyStrip l = "" then loadEntries parse ls
    else
      match parse (pyStrip l) with
      | some e => e :: loadEntries parse ls
      | none => loadEntries parse ls

/-- The filter-classify-sort core of `main` on an in-memory record list. -/
def runPipeline (entries : List RawRecord) : List Lead :=
  sortLeads (filterLeads entries [])

/-- Source constant `fieldnames`: the CSV header row. -/
def fieldnames : List String :=
  ["tier", "title", "category", "phone", "emails",
   "review_count", "review_rating", "address", "google_maps_link", "status"]

/-- Renders an optional string field the way `csv.DictWriter` renders a
Python value: `None` becomes the empty string. -/
def optCell (v : Option String) : String :=
  match v with
  | none => ""
  | some s => s

/-- Renders an optional numeric field: `None` becomes the empty cell. -/
def optIntCell (v : Option Int) : String :=
  match v with
  | none => ""
  | some n => toString n

/-- One CSV data row of a lead, field values in `fieldnames` order. -/
def leadRow (l : Lead) : List String :=
  [toString l.tier, l.title, optCell l.category, l.phone, l.emails,
   toString l.review_count, optIntCell l.review_rating, optCell l.address,
   optCell l.google_maps_link, optCell l.status]

/-- Embeds `write_csv`: the file content as rows of cells, header row
first, one data row per lead. -/
def csvFile (data : List Lead) : List (List String) :=
  fieldnames :: data.map leadRow

/-- The input file as seen by `main`: either missing on disk or present
with a list of text lines. -/
inductive InputFile where
  | missing
  | present (lines : List String)
deriving DecidableEq

/-- Observable outcome of one run of `main`: process exit code, the error
message if any, the console counts, the in-memory lead list, and the three
export files (`none` when the run exits before writing). -/
structure RunOutput where
  exitCode : Nat
  errorMsg : Option String
  totalEntries : Nat
  totalLeads : Nat
  leads : List Lead
  fileAll : Option (List (List String))
  fileTier1 : Option (List (List String))
  fileTier2 : Option (List (List String))
deriving DecidableEq

/-- Embeds `main`: on a missing input file print an error naming it and
exit with status 1 before any filtering or writing; otherwise load, filter,
sort, and write the three exports, exiting with status 0. -/
def runMain (parse : String → Option RawRecord) : InputFile → RunOutput
  | .missing =>
    { exitCode := 1
      errorMsg := some ("ERROR: " ++ INPUT_FILE ++ " not found. Run the scraper first.")
      totalEntries := 0
      totalLeads := 0
      leads := []
      fileAll := none
      fileTier1 := none
      fileTier2 := none }
  | .present lines =>
    let entries := loadEntries parse lines
    let leads := runPipeline entries
    { exitCode := 0
      errorMsg := none
      totalEntries := entries.length
      totalLeads := leads.length
      leads := leads
      fileAll := some (csvFile leads)
      fileTier1 := some (csvFile (leads.filter (fun l => l.tier == 1)))
      fileTier2 := some (csvFile (leads.filter (fun l => l.tier == 2))) }

/-- Dedup key recomputed from a constructed lead's fields. -/
def leadKey (l : Lead) : String :=
  l.title ++ "|" ++ l.phone

/-- Concrete record: no website, five reviews, a phone, a plumbing title
and category (the spec's Scenario B shape). -/
def rec1 : RawRecord :=
  { web_site := .absent, review_count := .val 5, phone := .val "0722123456",
    emails := .absent, title := .val "Instalatii Popescu",
    categories := .val ["plumber"], category := .val "Plumber",
    review_rating := .val 4, address := .absent, link := .absent,
    status := .absent }

/-- Concrete record: the spec's Scenario C first record ("ABC Salon",
phone 0733000000, five reviews). -/
def rec3a : RawRecord :=
  { web_site := .absent, review_count := .val 5, phone := .val "0733000000",
    emails := .absent, title := .val "ABC Salon", categories := .absent,
    category := .absent, review_rating := .absent, address := .absent,
    link := .absent, status := .absent }

/-- Concrete record: the spec's Scenario C second record (same title and
phone as `rec3a`, more reviews). -/
def rec3b : RawRecord :=
  { web_site := .absent, review_count := .val 10, phone := .val "0733000000",
    emails := .absent, title := .val "ABC Salon", categories := .absent,
    category := .absent, review_rating := .absent, address := .absent,
    link := .absent, status := .absent }

/-- Concrete record: unclassified business, two reviews, distinct phone
from `rec4b`. -/
def rec4a : RawRecord :=
  { web_site := .absent, review_count := .val 2, phone := .val "0711000001",
    emails := .absent, title := .val "Zzz One", categories := .absent,
    category := .absent, review_rating := .absent, address := .absent,
    link := .absent, status := .absent }

/-- Concrete record: unclassified business with the same tier and review
count as `rec4a` but a different dedup key. -/
def rec4b : RawRecord :=
  { web_site := .absent, review_count := .val 2, phone := .val "0722000002",
    emails := .absent, title := .val "Zzz Two", categories := .absent,
    category := .absent, review_rating := .absent, address := .absent,
    link := .absent, status := .absent }

/-- Concrete record: qualifying record whose `review_rating` key is bound
to `null`. -/
def rec6 : RawRecord :=
  { web_site := .absent, review_count := .val 3, phone := .val "0700123456",
    emails := .absent, title := .val "Nail Bar", categories := .absent,
    category := .absent, review_rating := .null, address := .absent,
    link := .absent, status := .absent }

/-- Concrete record: title containing the dedup separator character. -/
def rec10a : RawRecord :=
  { web_site := .absent, review_count := .val 1, phone := .val "C",
    emails := .absent, title := .val "A|B", categories := .absent,
    category := .absent, review_rating := .absent, address := .absent,
    link := .absent, status := .absent }

/-- Concrete record: phone containing the dedup separator character, so
its dedup key collides with that of `rec10a` although the (title, phone)
pairs differ. -/
def rec10b : RawRecord :=
  { web_site := .absent, review_count := .val 1, phone := .val "B|C",
    emails := .absent, title := .val "A", categories := .absent,
    category := .absent, review_rating := .absent, address := .absent,
    link := .absent, status := .absent }

/-! ## Supporting lemmas -/

/-- The Boolean filter guard holds exactly when the three inclusion
predicates hold: trimmed website empty, defaulted review count at least 1,
and trimmed phone non-empty or emails non-empty. -/
theorem passesFilter_iff (e : RawRecord) :
    passesFilter e = true ↔
      pyStrip (getStrOr e.web_site) = "" ∧
      1 ≤ getIntOr e.review_count ∧
      (pyStrip (getStrOr e.phone) ≠ "" ∨ getListOr e.emails ≠ []) := by
  simp only [passesFilter]
  by_cases h1 : pyStrip (getStrOr e.web_site) = "" <;>
    by_cases h2 : getIntOr e.review_count < 1 <;>
      by_cases h3 : pyStrip (getStrOr e.phone) = "" ∧ getListOr e.emails = [] <;>
        simp [h1, h2, h3, not_and_or, Int.not_lt] <;>
          exact ⟨by omega, not_and_or.mp h3⟩

/-- Every lead emitted by the filter loop is `mkLead e` for some record
`e` of the input that passes the filter guard. -/
theorem mem_filterLeads {L : Lead} :
    ∀ (entries : List RawRecord) (seen : List String),
      L ∈ filterLeads entries seen →
      ∃ e ∈ entries, passesFilter e = true ∧ L = mkLead e := by
  intro entries
  induction entries with
  | nil => intro seen h; simp [filterLeads] at h
  | cons e rest ih =>
    intro seen h
    unfold filterLeads at h
    split at h
    · next hp =>
      split at h
      · obtain ⟨e', he', hq, hL⟩ := ih _ h
        exact ⟨e', List.mem_cons_of_mem _ he', hq, hL⟩
      · rcases List.mem_cons.mp h with hL | h'
        · exact ⟨e, List.mem_cons_self _ _, hp, hL⟩
        · obtain ⟨e', he', hq, hL⟩ := ih _ h'
          exact ⟨e', List.mem_cons_of_mem _ he', hq, hL⟩
    · obtain ⟨e', he', hq, hL⟩ := ih _ h
      exact ⟨e', List.mem_cons_of_mem _ he', hq, hL⟩

/-- Splitting the filter loop at a list append. -/
theorem filterLeads_append (l1 l2 : List RawRecord) (seen : List String) :
    filterLeads (l1 ++ l2) seen =
      filterLeads l1 seen ++ filterLeads l2 (seenAfter l1 seen) := by
  induction l1 generalizing seen with
  | nil => rfl
  | cons e rest ih =>
    by_cases hp : passesFilter e
    · by_cases hk : dedupKey e ∈ seen
      · simp [filterLeads, seenAfter, hp, hk, ih]
      · simp [filterLeads, seenAfter, hp, hk, ih]
    · simp [filterLeads, seenAfter, hp, ih]

/-- The seen key set only grows along the loop. -/
theorem mem_seenAfter_of_mem {k : String} :
    ∀ (l : List RawRecord) (seen : List String), k ∈ seen → k ∈ seenAfter l seen := by
  intro l
  induction l with
  | nil => intro seen h; exact h
  | cons e rest ih =>
    intro seen h
    unfold seenAfter
    split
    · split
      · exact ih seen h
      · exact ih _ (List.mem_cons_of_mem _ h)
    · exact ih seen h

/-- Any key in the seen set after the loop was either there initially or
is the dedup key of some qualifying record of the processed list. -/
theorem mem_of_mem_seenAfter {k : String} :
    ∀ (l : List RawRecord) (seen : List String),
      k ∈ seenAfter l seen →
      k ∈ seen ∨ ∃ e ∈ l, passesFilter e = true ∧ dedupKey e = k := by
  intro l
  induction l with
  | nil => intro seen h; exact Or.inl h
  | cons e rest ih =>
    intro seen h
    unfold seenAfter at h
    split at h
    · next hp =>
      split at h
      · rcases ih _ h with h' | ⟨e', he', hq, hk⟩
        · exact Or.inl h'
        · exact Or.inr ⟨e', List.mem_cons_of_mem _ he', hq, hk⟩
      · rcases ih _ h with h' | ⟨e', he', hq, hk⟩
        · rcases List.mem_cons.mp h' with heq | h''
          · exact Or.inr ⟨e, List.mem_cons_self _ _, hp, heq.symm⟩
          · exact Or.inl h''
        · exact Or.inr ⟨e', List.mem_cons_of_mem _ he', hq, hk⟩
    · rcases ih _ h with h' | ⟨e', he', hq, hk⟩
      · exact Or.inl h'
      · exact Or.inr ⟨e', List.mem_cons_of_mem _ he', hq, hk⟩

/-- A record whose dedup key is already taken contributes nothing. -/
theorem filterLeads_skip {e : RawRecord} {seen : List String}
    (h : dedupKey e ∈ seen) (rest : List RawRecord) :
    filterLeads (e :: rest) seen = filterLeads rest seen := by
  rw [filterLeads]
  by_cases hp : passesFilter e <;> simp [hp, h]

/-- A record whose dedup key is already in the seen set before some
intervening records can be deleted from the input without changing the
output. -/
theorem filterLeads_drop_later (mid post : List RawRecord) (e2 : RawRecord)
    (seen : List String) (h : dedupKey e2 ∈ seen) :
    filterLeads (mid ++ e2 :: post) seen = filterLeads (mid ++ post) seen := by
  rw [filterLeads_append, filterLeads_append]
  have h2 : dedupKey e2 ∈ seenAfter mid seen := mem_seenAfter_of_mem mid seen h
  rw [filterLeads_skip h2 post]

/-- After a qualifying record `e1`, a later record sharing its dedup key
can be deleted without changing the output. -/
theorem filterLeads_cons_drop (e1 e2 : RawRecord) (mid post : List RawRecord)
    (seen : List String) (h1 : passesFilter e1 = true)
    (hk : dedupKey e1 = dedupKey e2) :
    filterLeads (e1 :: (mid ++ e2 :: post)) seen =
      filterLeads (e1 :: (mid ++ post)) seen := by
  unfold filterLeads
  by_cases hm : dedupKey e1 ∈ seen
  · simp only [h1, hm, if_true]
    have h2 : dedupKey e2 ∈ seen := hk ▸ hm
    exact filterLeads_drop_later mid post e2 seen h2
  · simp only [h1, hm, if_true, if_false]
    have h2 : dedupKey e2 ∈ dedupKey e1 :: seen := by
      rw [← hk]; exact List.mem_cons_self _ _
    rw [filterLeads_drop_later mid post e2 _ h2]

/-- The dedup key recomputed from a constructed lead coincides with the
dedup key of its source record. -/
theorem leadKey_mkLead (e : RawRecord) : leadKey (mkLead e) = dedupKey e := rfl

/-- A lead emitted by the filter loop has a key outside the initial seen
set. -/
theorem leadKey_not_seen {L : Lead} :
    ∀ (entries : List RawRecord) (seen : List String),
      L ∈ filterLeads entries seen → leadKey L ∉ seen := by
  intro entries
  induction entries with
  | nil => intro seen h; simp [filterLeads] at h
  | cons e rest ih =>
    intro seen h
    unfold filterLeads at h
    split at h
    · split at h
      · exact ih _ h
      · next hk =>
        rcases List.mem_cons.mp h with hL | h'
        · rw [hL, leadKey_mkLead]; exact hk
        · intro hmem
          exact ih _ h' (List.mem_cons_of_mem _ hmem)
    · exact ih _ h

/-- The leads emitted by the filter loop carry pairwise distinct dedup
keys. -/
theorem pairwise_leadKey_filterLeads :
    ∀ (entries : List RawRecord) (seen : List String),
      (filterLeads entries seen).Pairwise (fun a b => leadKey a ≠ leadKey b) := by
  intro entries
  induction entries with
  | nil => intro seen; simp [filterLeads]
  | cons e rest ih =>
    intro seen
    unfold filterLeads
    split
    · split
      · exact ih _
      · refine List.Pairwise.cons ?_ (ih _)
        intro L hL
        rw [leadKey_mkLead]
        intro heq
        apply leadKey_not_seen rest _ hL
        rw [← heq]
        exact List.mem_cons_self _ _
    · exact ih _

/-- The embedded sort comparison is transitive. -/
theorem leadLE_trans :
    ∀ (a b c : Lead), leadLE a b = true → leadLE b c = true → leadLE a c = true := by
  intro a b c hab hbc
  simp only [leadLE, Bool.or_eq_true, decide_eq_true_eq, Bool.and_eq_true,
    beq_iff_eq] at *
  omega

/-- The embedded sort comparison is total. -/
theorem leadLE_total : ∀ (a b : Lead), (leadLE a b || leadLE b a) = true := by
  intro a b
  simp only [leadLE, Bool.or_eq_true, decide_eq_true_eq, Bool.and_eq_true,
    beq_iff_eq]
  omega

/-! ## Claims -/

/-- C1: a Lead is produced from a record only if all three inclusion
predicates hold (website treated as empty when absent or null and trimmed
is empty; review count defaulted to 0 when absent or null is at least 1;
trimmed phone non-empty or emails non-empty), so every output lead of the
pipeline stems from a record satisfying all three. -/
theorem spec_c1_lead_inclusion (entries : List RawRecord) (L : Lead)
    (hL : L ∈ runPipeline entries) :
    ∃ e ∈ entries, L = mkLead e ∧
      pyStrip (getStrOr e.web_site) = "" ∧
      1 ≤ getIntOr e.review_count ∧
      (pyStrip (getStrOr e.phone) ≠ "" ∨ getListOr e.emails ≠ []) := by
  have h0 : L ∈ (filterLeads entries []).mergeSort leadLE := hL
  have h1 : L ∈ filterLeads entries [] :=
    ((List.mergeSort_perm (filterLeads entries []) leadLE).mem_iff).mp h0
  obtain ⟨e, he, hq, hEq⟩ := mem_filterLeads entries [] h1
  obtain ⟨hw, hr, hc⟩ := (passesFilter_iff e).mp hq
  exact ⟨e, he, hEq, hw, hr, hc⟩

/-- Witness for C1 at the concrete record `rec1`. -/
theorem spec_c1_lead_inclusion_witness :
    mkLead rec1 ∈ runPipeline [rec1] ∧
    ∃ e ∈ [rec1], mkLead rec1 = mkLead e ∧
      pyStrip (getStrOr e.web_site) = "" ∧
      1 ≤ getIntOr e.review_count ∧
      (pyStrip (getStrOr e.phone) ≠ "" ∨ getListOr e.emails ≠ []) := by
  have h : filterLeads [rec1] [] = [mkLead rec1] := by decide
  have hmem : mkLead rec1 ∈ runPipeline [rec1] := by
    rw [runPipeline, sortLeads, h, List.mergeSort_singleton]
    exact List.mem_singleton_self _
  exact ⟨hmem, spec_c1_lead_inclusion [rec1] (mkLead rec1) hmem⟩

/-- C2: `classify_tier` always returns 1, 2 or 3; it returns 1 iff the
lowercased join of title and categories contains a tier-1 keyword, 2 iff
it contains no tier-1 keyword but a tier-2 keyword, and 3 iff it contains
neither. -/
theorem spec_c2_classify_tier (title : String) (categories : List String) :
    (classify_tier title categories = 1 ∨ classify_tier title categories = 2 ∨
      classify_tier title categories = 3) ∧
    (classify_tier title categories = 1 ↔
      ∃ kw ∈ TIER1_KEYWORDS, strIn kw (searchText title categories) = true) ∧
    (classify_tier title categories = 2 ↔
      (¬ ∃ kw ∈ TIER1_KEYWORDS, strIn kw (searchText title categories) = true) ∧
      ∃ kw ∈ TIER2_KEYWORDS, strIn kw (searchText title categories) = true) ∧
    (classify_tier title categories = 3 ↔
      (¬ ∃ kw ∈ TIER1_KEYWORDS, strIn kw (searchText title categories) = true) ∧
      ¬ ∃ kw ∈ TIER2_KEYWORDS, strIn kw (searchText title categories) = true) := by
  have e1 : (∃ kw ∈ TIER1_KEYWORDS, strIn kw (searchText title categories) = true) ↔
      TIER1_KEYWORDS.any (fun kw => strIn kw (searchText title categories)) = true := by
    simp
  have e2 : (∃ kw ∈ TIER2_KEYWORDS, strIn kw (searchText title categories) = true) ↔
      TIER2_KEYWORDS.any (fun kw => strIn kw (searchText title categories)) = true := by
    simp
  simp only [e1, e2]
  by_cases h1 : TIER1_KEYWORDS.any (fun kw => strIn kw (searchText title categories)) = true <;>
    by_cases h2 : TIER2_KEYWORDS.any (fun kw => strIn kw (searchText title categories)) = true <;>
      simp [classify_tier, h1, h2]

/-- C3: deduplication keeps the first qualifying record in input order for
each dedup key: when a qualifying record `e1` is the first with its key,
it produces its lead, and any later record `e2` with the same key is
dropped — removing `e2` from the input leaves the output unchanged,
whatever its other fields are. -/
theorem spec_c3_dedup_first_wins (pre mid post : List RawRecord)
    (e1 e2 : RawRecord)
    (h1 : passesFilter e1 = true) (h2 : passesFilter e2 = true)
    (hk : dedupKey e1 = dedupKey e2)
    (hfirst : ∀ e' ∈ pre, passesFilter e' = true → dedupKey e' ≠ dedupKey e1) :
    mkLead e1 ∈ filterLeads (pre ++ (e1 :: (mid ++ (e2 :: post)))) [] ∧
    filterLeads (pre ++ (e1 :: (mid ++ (e2 :: post)))) [] =
      filterLeads (pre ++ (e1 :: (mid ++ post))) [] := by
  have hnot : dedupKey e1 ∉ seenAfter pre [] := by
    intro hmem
    rcases mem_of_mem_seenAfter pre [] hmem with h' | ⟨e', he', hq, hkey⟩
    · exact absurd h' (List.not_mem_nil _)
    · exact hfirst e' he' hq hkey
  constructor
  · rw [filterLeads_append]
    have step : filterLeads (e1 :: (mid ++ (e2 :: post))) (seenAfter pre []) =
        mkLead e1 ::
          filterLeads (mid ++ (e2 :: post)) (dedupKey e1 :: seenAfter pre []) := by
      rw [filterLeads]
      simp [h1, hnot]
    rw [step]
    exact List.mem_append_right _ (List.mem_cons_self _ _)
  · rw [filterLeads_append, filterLeads_append,
      filterLeads_cons_drop e1 e2 mid post _ h1 hk]

/-- Witness for C3 at the spec's Scenario C records (same title and phone,
different review counts). -/
theorem spec_c3_dedup_first_wins_witness :
    passesFilter rec3a = true ∧ passesFilter rec3b = true ∧
    dedupKey rec3a = dedupKey rec3b ∧
    (mkLead rec3a ∈ filterLeads ([] ++ (rec3a :: ([] ++ (rec3b :: [])))) [] ∧
     filterLeads ([] ++ (rec3a :: ([] ++ (rec3b :: [])))) [] =
       filterLeads ([] ++ (rec3a :: ([] ++ []))) []) := by
  refine ⟨by decide, by decide, by decide,
    spec_c3_dedup_first_wins [] [] [] rec3a rec3b (by decide) (by decide)
      (by decide) ?_⟩
  intro e' he'
  exact absurd he' (List.not_mem_nil _)

/-- C4: the ranked list is sorted by tier ascending then review count
descending (adjacent pairs satisfy the composite order), and the sort is
stable: two leads with equal tier and review count keep the relative order
they had in the filtered sequence. -/
theorem spec_c4_sorted_and_stable (entries : List RawRecord) :
    List.Chain' (fun a b => a.tier < b.tier ∨
      (a.tier = b.tier ∧ b.review_count ≤ a.review_count)) (runPipeline entries) ∧
    (∀ L1 L2 : Lead, L1.tier = L2.tier → L1.review_count = L2.review_count →
      [L1, L2].Sublist (filterLeads entries []) →
      [L1, L2].Sublist (runPipeline entries)) := by
  constructor
  · have hp := List.sorted_mergeSort leadLE_trans leadLE_total
      (filterLeads entries [])
    have hc := hp.chain'
    have himp : ∀ a b : Lead, leadLE a b = true →
        a.tier < b.tier ∨ (a.tier = b.tier ∧ b.review_count ≤ a.review_count) := by
      intro a b h
      simpa only [leadLE, Bool.or_eq_true, decide_eq_true_eq, Bool.and_eq_true,
        beq_iff_eq] using h
    exact List.Chain'.imp himp hc
  · intro L1 L2 ht hr hsub
    have hle : leadLE L1 L2 = true := by
      simp [leadLE, ht, hr]
    have hpw : List.Pairwise (fun a b => leadLE a b = true) [L1, L2] := by
      simp [List.pairwise_cons, hle]
    exact List.sublist_mergeSort leadLE_trans leadLE_total hpw hsub

/-- Witness for C4 at two records with equal tier and review count. -/
theorem spec_c4_sorted_and_stable_witness :
    (mkLead rec4a).tier = (mkLead rec4b).tier ∧
    (mkLead rec4a).review_count = (mkLead rec4b).review_count ∧
    [mkLead rec4a, mkLead rec4b].Sublist (filterLeads [rec4a, rec4b] []) ∧
    [mkLead rec4a, mkLead rec4b].Sublist (runPipeline [rec4a, rec4b]) := by
  have heval : filterLeads [rec4a, rec4b] [] = [mkLead rec4a, mkLead rec4b] := by
    decide
  have hsub : [mkLead rec4a, mkLead rec4b].Sublist (filterLeads [rec4a, rec4b] []) := by
    rw [heval]
  exact ⟨by decide, by decide, hsub,
    (spec_c4_sorted_and_stable [rec4a, rec4b]).2 _ _ (by decide) (by decide) hsub⟩

/-- C5: all pairs of distinct output leads differ on (title, phone); the
invariant holds for the sorted list and for the tier-1 and tier-2 subset
exports. -/
theorem spec_c5_pairs_unique (entries : List RawRecord) :
    (runPipeline entries).Pairwise
      (fun a b => ¬(a.title = b.title ∧ a.phone = b.phone)) ∧
    ((runPipeline entries).filter (fun l => l.tier == 1)).Pairwise
      (fun a b => ¬(a.title = b.title ∧ a.phone = b.phone)) ∧
    ((runPipeline entries).filter (fun l => l.tier == 2)).Pairwise
      (fun a b => ¬(a.title = b.title ∧ a.phone = b.phone)) := by
  have hkey := pairwise_leadKey_filterLeads entries []
  have himp : (filterLeads entries []).Pairwise
      (fun a b => ¬(a.title = b.title ∧ a.phone = b.phone)) := by
    refine hkey.imp ?_
    intro a b hne hc
    apply hne
    unfold leadKey
    rw [hc.1, hc.2]
  have hsymm : ∀ {a b : Lead}, ¬(a.title = b.title ∧ a.phone = b.phone) →
      ¬(b.title = a.title ∧ b.phone = a.phone) := by
    intro a b h hc
    exact h ⟨hc.1.symm, hc.2.symm⟩
  have hperm : (runPipeline entries).Perm (filterLeads entries []) :=
    List.mergeSort_perm _ _
  have hmain : (runPipeline entries).Pairwise
      (fun a b => ¬(a.title = b.title ∧ a.phone = b.phone)) :=
    (hperm.pairwise_iff hsymm).mpr himp
  exact ⟨hmain, List.Pairwise.sublist (List.filter_sublist _) hmain,
    List.Pairwise.sublist (List.filter_sublist _) hmain⟩

/-- C6 counterexample: a qualifying record whose `review_rating` key is
bound to `null` produces a lead whose `review_rating` is the null value,
not the claimed default 0 — `d.get(k, 0)` defaults only when the key is
absent. -/
theorem spec_c6_counterexample :
    passesFilter rec6 = true ∧ rec6.review_rating = JField.null ∧
    (mkLead rec6).review_rating ≠ some 0 := by decide

/-- C6 amended: the produced Lead's `review_rating` equals the record's
value when the key is present with a value, equals the default 0 only when
the key is ABSENT, and is the null value (`none`) when the key is present
but bound to null. -/
theorem spec_c6_review_rating_default (e : RawRecord) (v : Int) :
    (mkLead { e with review_rating := JField.val v }).review_rating = some v ∧
    (mkLead { e with review_rating := JField.absent }).review_rating = some 0 ∧
    (mkLead { e with review_rating := JField.null }).review_rating = none :=
  ⟨rfl, rfl, rfl⟩

/-- C7: the loader yields exactly the successfully parsed records of the
non-blank (stripped) lines, in line order; blank lines contribute nothing
and unparseable lines are silently skipped, the loop continuing with the
rest. -/
theorem spec_c7_loader (parse : String → Option RawRecord) (lines : List String) :
    loadEntries parse lines =
      lines.filterMap
        (fun l => if pyStrip l = "" then none else parse (pyStrip l)) := by
  induction lines with
  | nil => rfl
  | cons l ls ih =>
    rw [loadEntries, List.filterMap_cons]
    by_cases h : pyStrip l = ""
    · simp [h, ih]
    · cases hp : parse (pyStrip l) <;> simp [h, hp, ih]

/-- C8: a missing input file yields exit status 1, an error message naming
the input file, and no filtering or writing; any present file yields exit
status 0, and an empty file still produces the three exports containing
exactly the header row, with zero entries and zero leads reported. -/
theorem spec_c8_exit_codes (parse : String → Option RawRecord) (lines : List String) :
    (runMain parse InputFile.missing).exitCode = 1 ∧
    (∃ msg, (runMain parse InputFile.missing).errorMsg = some msg ∧
      strIn INPUT_FILE msg = true) ∧
    (runMain parse InputFile.missing).fileAll = none ∧
    (runMain parse InputFile.missing).fileTier1 = none ∧
    (runMain parse InputFile.missing).fileTier2 = none ∧
    (runMain parse InputFile.missing).leads = [] ∧
    (runMain parse (InputFile.present lines)).exitCode = 0 ∧
    (runMain parse (InputFile.present [])).fileAll = some [fieldnames] ∧
    (runMain parse (InputFile.present [])).fileTier1 = some [fieldnames] ∧
    (runMain parse (InputFile.present [])).fileTier2 = some [fieldnames] ∧
    (runMain parse (InputFile.present [])).totalEntries = 0 ∧
    (runMain parse (InputFile.present [])).totalLeads = 0 := by
  have hempty : runPipeline (loadEntries parse []) = [] := by
    show (filterLeads (loadEntries parse []) []).mergeSort leadLE = []
    rw [show filterLeads (loadEntries parse []) [] = [] from rfl]
    exact List.mergeSort_nil
  refine ⟨rfl, ⟨_, rfl, by decide⟩, rfl, rfl, rfl, rfl, rfl, ?_, ?_, ?_, rfl, ?_⟩ <;>
    simp [runMain, hempty, csvFile]

/-- C9: the pipeline is deterministic end to end: two runs on the same
input produce identical lead lists and identical contents for the three
export files. -/
theorem spec_c9_deterministic (parse : String → Option RawRecord)
    (i1 i2 : InputFile) (h : i1 = i2) :
    (runMain parse i1).leads = (runMain parse i2).leads ∧
    (runMain parse i1).fileAll = (runMain parse i2).fileAll ∧
    (runMain parse i1).fileTier1 = (runMain parse i2).fileTier1 ∧
    (runMain parse i1).fileTier2 = (runMain parse i2).fileTier2 := by
  subst h
  exact ⟨rfl, rfl, rfl, rfl⟩

/-- Witness for C9 at a concrete parser and input. -/
theorem spec_c9_deterministic_witness :
    InputFile.present ["not json"] = InputFile.present ["not json"] ∧
    ((runMain (fun _ => none) (InputFile.present ["not json"])).leads =
      (runMain (fun _ => none) (InputFile.present ["not json"])).leads ∧
     (runMain (fun _ => none) (InputFile.present ["not json"])).fileAll =
      (runMain (fun _ => none) (InputFile.present ["not json"])).fileAll ∧
     (runMain (fun _ => none) (InputFile.present ["not json"])).fileTier1 =
      (runMain (fun _ => none) (InputFile.present ["not json"])).fileTier1 ∧
     (runMain (fun _ => none) (InputFile.present ["not json"])).fileTier2 =
      (runMain (fun _ => none) (InputFile.present ["not json"])).fileTier2) :=
  ⟨rfl, spec_c9_deterministic (fun _ => none) _ _ rfl⟩

/-- C10 (implicit): because the dedup key concatenates title and phone
with the single character separator, two qualifying records with distinct
(title, phone) pairs can share a dedup key, in which case the later record
is dropped: removing it from the input leaves the output unchanged. -/
theorem spec_c10_key_collision (pre mid post : List RawRecord)
    (e1 e2 : RawRecord)
    (h1 : passesFilter e1 = true) (h2 : passesFilter e2 = true)
    (hpair : (pyStrip (getStrOr e1.title), pyStrip (getStrOr e1.phone)) ≠
      (pyStrip (getStrOr e2.title), pyStrip (getStrOr e2.phone)))
    (hk : dedupKey e1 = dedupKey e2) :
    filterLeads (pre ++ (e1 :: (mid ++ (e2 :: post)))) [] =
      filterLeads (pre ++ (e1 :: (mid ++ post))) [] := by
  rw [filterLeads_append, filterLeads_append,
    filterLeads_cons_drop e1 e2 mid post _ h1 hk]

/-- Witness for C10 at title "A|B" with phone "C" versus title "A" with
phone "B|C". -/
theorem spec_c10_key_collision_witness :
    passesFilter rec10a = true ∧ passesFilter rec10b = true ∧
    (pyStrip (getStrOr rec10a.title), pyStrip (getStrOr rec10a.phone)) ≠
      (pyStrip (getStrOr rec10b.title), pyStrip (getStrOr rec10b.phone)) ∧
    dedupKey rec10a = dedupKey rec10b ∧
    filterLeads ([] ++ (rec10a :: ([] ++ (rec10b :: [])))) [] =
      filterLeads ([] ++ (rec10a :: ([] ++ []))) [] :=
  ⟨by decide, by decide, by decide, by decide,
    spec_c10_key_collision [] [] [] rec10a rec10b (by decide) (by decide)
      (by decide) (by decide)⟩

end FilterLeads
